import Mathlib

/-!
Verification of the MOEX market-data client (moex.py, dbutils.py).

The Python source is shallowly embedded: pandas dataframes become explicit
column-list plus row-list tables, HTTP traffic becomes oracle functions
supplied as parameters, and Python exceptions become an explicit error
type threaded through Except. Every definition mirrors the corresponding
Python function; line numbers refer to the repository sources.
-/

namespace Moex

/-- Cell value of a dataframe: a string, an integer (dates are coded as day
numbers, prices as integers), Python None, or a NaN produced by pandas. -/
inductive Val where
  | str : String → Val
  | num : Int → Val
  | pynone : Val
  | nan : Val
  deriving DecidableEq

/-- Python exceptions that the client can raise, as an explicit error type. -/
inductive PyErr where
  | keyError : PyErr
  | indexError : PyErr
  | valueError : PyErr
  | unboundLocalError : PyErr
  | connectionError : PyErr
  | nameError : PyErr
  deriving DecidableEq

/-- Response headers, as a lookup list from header name to value. -/
abbrev Headers := List (String × String)

/-- Embeds the marker test of the token validator in moex.py lines 24 to 35:
the response header X-MicexPassport-Marker is read with default value
denied and compared with granted. (The branch that re-fetches a probe URL
when a token string is supplied ends in exactly this comparison on the
probe response headers; the client always calls the validator with
response headers only.) -/
def is_token_valid (response_headers : Headers) : Bool :=
  ((response_headers.lookup "X-MicexPassport-Marker").getD "denied") == "granted"

/-- C10: credential validity is decided solely by comparing the response
header X-MicexPassport-Marker with the string granted, and a response in
which that header is absent is treated exactly as a deny, never as a
grant. -/
theorem C10_marker_decides_validity (h : Headers) :
    (is_token_valid h = true ↔ h.lookup "X-MicexPassport-Marker" = some "granted") ∧
    (h.lookup "X-MicexPassport-Marker" = none → is_token_valid h = false) := by
  cases hl : h.lookup "X-MicexPassport-Marker" with
  | none => simp [is_token_valid, hl]
  | some v => simp [is_token_valid, hl]

/-- Witness for C10: a granted marker validates, an empty header set does
not. -/
theorem C10_marker_decides_validity_witness :
    is_token_valid [("X-MicexPassport-Marker", "granted")] = true ∧
      is_token_valid [] = false :=
  ⟨(C10_marker_decides_validity _).1.mpr rfl, (C10_marker_decides_validity _).2 rfl⟩

/-! ### Dataframes and JSON payloads -/

/-- Raw columnar table as it appears in the JSON payload: a column-name
list and row-oriented data. -/
structure RawTable where
  columns : List String
  data : List (List Val)
  deriving DecidableEq

/-- A JSON body: top-level keys each holding a raw columnar table. -/
abbrev Json := List (String × RawTable)

/-- A pandas dataframe: named columns and rows of cells, always indexed
from zero (the client reindexes after every row filter). -/
structure DF where
  columns : List String
  rows : List (List Val)
  deriving DecidableEq

/-- Pads a row to the given width with NaN, as the pandas dataframe
constructor does for short rows. -/
def padRow (n : Nat) (r : List Val) : List Val :=
  r ++ List.replicate (n - r.length) Val.nan

/-- Embeds the dataframe construction pd.DataFrame(data, columns) used
throughout moex.py: a row wider than the column list raises ValueError,
shorter rows are padded with NaN. -/
def mkDf (t : RawTable) : Except PyErr DF :=
  if t.data.any (fun r => t.columns.length < r.length) then
    .error .valueError
  else
    .ok ⟨t.columns, t.data.map (padRow t.columns.length)⟩

/-- Reads the cell of a row under a named column, resolving the column
name against the column list. -/
def getCell (cols : List String) (row : List Val) (c : String) : Option Val :=
  (cols.indexOf? c).bind (fun i => row.get? i)

/-- Embeds the row filter df.loc of a board-id equality mask: raises
KeyError when the BOARDID column is absent, otherwise keeps exactly the
rows whose BOARDID cell equals the requested board string. -/
def filterBoard (df : DF) (b : String) : Except PyErr DF :=
  if df.columns.contains "BOARDID" then
    .ok ⟨df.columns, df.rows.filter
      (fun r => getCell df.columns r "BOARDID" == some (Val.str b))⟩
  else .error .keyError

/-! ### Historical range chunking (claim C1) -/

/-- One pass of the chunking loop of history_price_range (moex.py lines
234 to 245): each pass fetches the window from current_date_from to
current_date_from plus 50 days, then advances current_date_from by 50
days. Dates are proleptic day numbers. -/
def windowsGo : Nat → Int → List (Int × Int)
  | 0, _ => []
  | n + 1, cur => (cur, cur + 50) :: windowsGo n (cur + 50)

/-- The pass count computed in moex.py lines 228 to 230: n_days
floor-divided by 50, plus one when the remainder is nonzero. Divisor 50
is positive, so Euclidean and Python floor division agree. -/
def parse_times (dateFrom dateTo : Int) : Int :=
  let nDays := dateTo - dateFrom
  nDays / 50 + (if nDays % 50 = 0 then 0 else 1)

/-- The sequence of fetch windows produced by history_price_range when an
explicit start date is given (moex.py lines 221 to 245). -/
def historyWindows (dateFrom dateTo : Int) : List (Int × Int) :=
  windowsGo (parse_times dateFrom dateTo).toNat dateFrom

/-- Membership of a day in a fetch window: the helper fetch filters rows
with TRADEDATE between the window bounds inclusively (moex.py line 90),
so a window covers both of its endpoints as a closed date range. -/
def inWindow (w : Int × Int) (d : Int) : Prop := w.1 ≤ d ∧ d ≤ w.2

instance (w : Int × Int) (d : Int) : Decidable (inWindow w d) :=
  inferInstanceAs (Decidable (_ ∧ _))

theorem windowsGo_eq_map (n : Nat) (s : Int) :
    windowsGo n s = (List.range n).map (fun k : Nat => (s + 50 * (k : Int), s + 50 * (k : Int) + 50)) := by
  induction n generalizing s with
  | zero => rfl
  | succ n ih =>
    rw [List.range_succ_eq_map, List.map_cons, List.map_map]
    simp only [windowsGo, Nat.cast_zero, mul_zero, add_zero]
    rw [ih (s + 50)]
    congr 1
    apply List.map_congr_left
    intro k _
    simp only [Function.comp_apply, Nat.cast_succ, Prod.mk.injEq]
    constructor <;> ring

theorem parse_times_toNat (s e : Int) :
    (parse_times s e).toNat = ((e - s).toNat + 49) / 50 ∨ e < s := by
  rcases lt_or_le e s with h | h
  · exact Or.inr h
  · left
    simp only [parse_times]
    split <;> omega

theorem historyWindows_getElem (s e : Int) (j : Nat)
    (hj : j < (historyWindows s e).length) :
    (historyWindows s e)[j] = (s + 50 * (j : Int), s + 50 * (j : Int) + 50) := by
  have h1 : historyWindows s e = (List.range (parse_times s e).toNat).map
      (fun k : Nat => (s + 50 * (k : Int), s + 50 * (k : Int) + 50)) :=
    windowsGo_eq_map _ _
  rw [List.getElem_of_eq h1 hj]
  simp

/-- C1 (amended): for start strictly before end, history_price_range
produces ceil((end-start)/50) fetch windows; every day of the interval
from start to end lies in some window; every window spans exactly 50
days; and consecutive windows abut, each window ending on the very day
the next one begins — so, as the closed date ranges the helper actually
fetches (its TRADEDATE filter is inclusive on both ends), neighbouring
windows share their boundary date rather than being disjoint, and the
last window may extend past the requested end. -/
theorem C1_amended_window_chunking (s e : Int) (h : s < e) :
    (historyWindows s e).length = ((e - s).toNat + 49) / 50 ∧
    (∀ d : Int, s ≤ d → d ≤ e → ∃ w ∈ historyWindows s e, inWindow w d) ∧
    (∀ w ∈ historyWindows s e, w.2 - w.1 = 50) ∧
    (∀ (k : Nat) (hk : k + 1 < (historyWindows s e).length),
      ((historyWindows s e)[k]).2 = ((historyWindows s e)[k + 1]).1) := by
  have hpt : (parse_times s e).toNat = ((e - s).toNat + 49) / 50 := by
    rcases parse_times_toNat s e with h1 | h1
    · exact h1
    · omega
  have hlen : (historyWindows s e).length = ((e - s).toNat + 49) / 50 := by
    rw [historyWindows, windowsGo_eq_map, List.length_map, List.length_range, hpt]
  refine ⟨hlen, ?_, ?_, ?_⟩
  · intro d hds hde
    have key : ∃ k : Nat, k < (parse_times s e).toNat ∧
        s + 50 * (k : Int) ≤ d ∧ d ≤ s + 50 * (k : Int) + 50 := by
      by_cases hd : d = s
      · exact ⟨0, by omega, by omega, by omega⟩
      · exact ⟨((d - s).toNat - 1) / 50, by omega, by omega, by omega⟩
    obtain ⟨k, hk, h1, h2⟩ := key
    rw [historyWindows, windowsGo_eq_map]
    exact ⟨_, List.mem_map_of_mem _ (List.mem_range.mpr hk), h1, h2⟩
  · intro w hw
    rw [historyWindows, windowsGo_eq_map] at hw
    obtain ⟨k, _, rfl⟩ := List.mem_map.mp hw
    ring
  · intro k hk
    rw [historyWindows_getElem s e k (by omega), historyWindows_getElem s e (k + 1) hk]
    push_cast
    ring

/-- Witness for C1 (amended) at start 0, end 60. -/
theorem C1_amended_window_chunking_witness :
    (0 : Int) < 60 ∧
      ((historyWindows 0 60).length = (((60 : Int) - 0).toNat + 49) / 50 ∧
      (∀ d : Int, 0 ≤ d → d ≤ 60 → ∃ w ∈ historyWindows 0 60, inWindow w d) ∧
      (∀ w ∈ historyWindows 0 60, w.2 - w.1 = 50) ∧
      (∀ (k : Nat) (hk : k + 1 < (historyWindows 0 60).length),
        ((historyWindows 0 60)[k]).2 = ((historyWindows 0 60)[k + 1]).1)) :=
  ⟨by decide, C1_amended_window_chunking 0 60 (by decide)⟩

/-- C1 counterexample: for start 0 and end 100 the two produced fetch
windows are the closed date ranges 0..50 and 50..100, and day 50 lies in
both, so the windows are not non-overlapping sub-ranges of the interval
as the claim states. -/
theorem C1_counterexample_windows_overlap :
    historyWindows 0 100 = [(0, 50), (50, 100)] ∧
      inWindow (0, 50) 50 ∧ inWindow (50, 100) 50 :=
  ⟨by decide, by decide, by decide⟩

/-! ### Request executor (claims C4 and C7) -/

/-- Outcome of one requests.get call, supplied by a network oracle: either
a raised transport exception (one of the TIMEOUT_ERRORS caught at moex.py
line 128) or a response with a status code and headers. -/
inductive FetchOutcome where
  | exc : FetchOutcome
  | resp : Nat → Headers → FetchOutcome

/-- Outcome of one internal authentication call, supplied by an oracle:
the token field it leaves behind (some token on success, none on a caught
rejection), or a transport exception escaping the authenticator, which
catches only AssertionError (see C6). At the refresh call site inside the
request executor that escaping exception lands in the surrounding try
block, whose except TIMEOUT_ERRORS clause catches it and lets the retry
loop continue with the token unchanged. -/
inductive AuthOutcome where
  | result : Option String → AuthOutcome
  | raise : AuthOutcome

/-- Result of the request executor. -/
inductive LoadOutcome where
  | success : Nat → Headers → LoadOutcome
  | returnedNone : LoadOutcome
  | raised : PyErr → LoadOutcome
  deriving DecidableEq

/-- Instrumented trace of one request-executor call: the outcome, the
number of requests.get calls issued, the number of refresh calls made,
and the cookie header attached to every issued request. -/
structure LoadTrace where
  outcome : LoadOutcome
  requestsMade : Nat
  authCalls : Nat
  cookieSent : String
  deriving DecidableEq

/-- The cookie header value built at moex.py line 104 by Python string
interpolation of the current token; the value None prints as the
four-letter string None. -/
def cookieOf (token : Option String) : String :=
  "MicexPassportCert=" ++ (match token with | some t => t | none => "None")

/-- The retry loop of the request executor (moex.py lines 106 to 133).
The response oracle gives the outcome of the i-th requests.get call and
the auth oracle the outcome of the j-th refresh. The header dict was
computed once before the loop from the initial token and is never
rebuilt, so a refresh replaces the token field without changing the
cookie any later request carries. respBound records whether the Python
local resp has ever been assigned: when the loop exhausts its attempts
with resp never assigned, the trailing error-reporting code raises
UnboundLocalError at its read of resp (moex.py line 131); otherwise the
function falls off the end and returns None. A refresh call whose inner
request raises a transport error (the raise arm of the auth oracle) is
caught by the same except TIMEOUT_ERRORS clause — the _auth() call sits
inside the try block — so that attempt is consumed and the loop retries
with the token unchanged. -/
def load_url_go (responses : Nat → FetchOutcome) (auth : Nat → AuthOutcome)
    (useToken : Bool) :
    Nat → Nat → Nat → Option String → Bool → (Nat × Nat × LoadOutcome)
  | 0, attempt, authCalls, _token, respBound =>
    (attempt, authCalls, if respBound then .returnedNone else .raised .unboundLocalError)
  | triesLeft + 1, attempt, authCalls, token, respBound =>
    match responses attempt with
    | .exc =>
      load_url_go responses auth useToken triesLeft (attempt + 1) authCalls token respBound
    | .resp status headers =>
      if useToken && (status == 403 || !(is_token_valid headers)) then
        match auth authCalls with
        | .raise =>
          load_url_go responses auth useToken triesLeft (attempt + 1) (authCalls + 1)
            token true
        | .result newTok =>
          load_url_go responses auth useToken triesLeft (attempt + 1) (authCalls + 1)
            newTok true
      else if status == 200 then
        (attempt + 1, authCalls, .success status headers)
      else
        load_url_go responses auth useToken triesLeft (attempt + 1) authCalls token true

/-- The request executor (moex.py lines 98 to 133): builds the header
dict once from the current token, then runs the retry loop for nTries
attempts. -/
def load_url (responses : Nat → FetchOutcome) (auth : Nat → AuthOutcome)
    (token0 : Option String) (useToken : Bool) (nTries : Nat) : LoadTrace :=
  let r := load_url_go responses auth useToken nTries 0 0 token0 false
  ⟨r.2.2, r.1, r.2.1, if useToken then cookieOf token0 else ""⟩

/-- Response oracle for the refresh scenario of C4: the first two
requests are answered 403, every later one 200 with a granted marker. -/
def respSeq403 : Nat → FetchOutcome := fun i =>
  if i < 2 then .resp 403 [] else .resp 200 [("X-MicexPassport-Marker", "granted")]

/-- Auth oracle that always succeeds with the refreshed token Y. -/
def authSeqY : Nat → AuthOutcome := fun _ => .result (some "Y")

/-- C4 counterexample: with credential X held and responses 403, 403,
then 200 with a granted marker, the executor performs two refresh calls,
not exactly one, and the cookie attached to every request — including
the final successful fetch — is built from the original credential X,
not from the refreshed credential Y. -/
theorem C4_counterexample_refresh :
    (load_url respSeq403 authSeqY (some "X") true 5).authCalls = 2 ∧
    (load_url respSeq403 authSeqY (some "X") true 5).cookieSent = cookieOf (some "X") ∧
    cookieOf (some "X") ≠ cookieOf (some "Y") ∧
    (load_url respSeq403 authSeqY (some "X") true 5).outcome =
      .success 200 [("X-MicexPassport-Marker", "granted")] := by
  decide

/-- C4 (amended): for a held credential and any responses whose first
three outcomes are 403, 403, then 200 with a granted marker, a refresh
occurs after each authorization denial — two refreshes here, not one —
each denied attempt consumes one unit of the shared five-attempt budget
(three requests are issued in total), and every request, the final
successful fetch included, carries the cookie built from the credential
held before the loop, the header dict never being rebuilt after a
refresh. -/
theorem C4_amended_refresh_per_deny (responses : Nat → FetchOutcome)
    (auth : Nat → AuthOutcome) (tok : String) (hs0 hs1 h200 : Headers)
    (a0 a1 : Option String)
    (h0 : responses 0 = .resp 403 hs0) (h1 : responses 1 = .resp 403 hs1)
    (h2 : responses 2 = .resp 200 h200) (hvalid : is_token_valid h200 = true)
    (ha0 : auth 0 = .result a0) (ha1 : auth 1 = .result a1) :
    (load_url responses auth (some tok) true 5).outcome = .success 200 h200 ∧
    (load_url responses auth (some tok) true 5).authCalls = 2 ∧
    (load_url responses auth (some tok) true 5).requestsMade = 3 ∧
    (load_url responses auth (some tok) true 5).cookieSent = cookieOf (some tok) := by
  simp [load_url, load_url_go, h0, h1, h2, ha0, ha1, hvalid]

/-- Witness for C4 (amended) on the concrete oracles of the scenario. -/
theorem C4_amended_refresh_per_deny_witness :
    (load_url respSeq403 authSeqY (some "X") true 5).outcome =
        .success 200 [("X-MicexPassport-Marker", "granted")] ∧
      (load_url respSeq403 authSeqY (some "X") true 5).authCalls = 2 ∧
      (load_url respSeq403 authSeqY (some "X") true 5).requestsMade = 3 ∧
      (load_url respSeq403 authSeqY (some "X") true 5).cookieSent =
        cookieOf (some "X") :=
  C4_amended_refresh_per_deny respSeq403 authSeqY "X" [] []
    [("X-MicexPassport-Marker", "granted")] (some "Y") (some "Y")
    rfl rfl rfl rfl rfl rfl

/-- Response oracle where every requests.get call raises a transport
error. -/
def respAllExc : Nat → FetchOutcome := fun _ => .exc

/-- Response oracle answering every request with status 500 and no
headers. -/
def respAll500 : Nat → FetchOutcome := fun _ => .resp 500 []

/-- C7: the executor retries transient transport errors immediately and
issues exactly five attempts; on the failing input where all five
attempts raise transport errors the Python local resp is never assigned,
so the post-loop error reporting raises UnboundLocalError instead of
returning the documented None — whereas when the exhausted attempts did
produce responses (all status 500 here, without a token) the executor
does return the None sentinel after exactly five attempts. -/
theorem C7_exhausted_retries :
    (load_url respAllExc authSeqY none false 5).requestsMade = 5 ∧
    (load_url respAllExc authSeqY none false 5).outcome =
      .raised .unboundLocalError ∧
    (load_url respAll500 authSeqY none false 5).requestsMade = 5 ∧
    (load_url respAll500 authSeqY none false 5).outcome = .returnedNone := by
  decide

/-! ### Data retriever operations (claims C3, C5, C6, C8) -/

/-- Result of a data-retrieval operation: a raised exception, or the
returned value where none is the Python None sentinel. -/
abbrev OpResult (α : Type) := Except PyErr (Option α)

/-- Embeds capitalization (moex.py lines 149 to 171), parameterized on
the outcome of its fetch: a raised fetch error propagates (the function
has no try block); a None fetch returns the sentinel; otherwise the
marketdata table is read (KeyError when the key is absent) and framed,
and if the frame has rows the first ISSUECAPITALIZATION value among the
rows matching the board is returned — the trailing values subscript
raising IndexError when the board filter selects no row — while a
rowless frame returns the sentinel. Framed rows are padded to full
width, so a cell read on a present column always yields a value. -/
def capitalization (fetch : Except PyErr (Option Json)) (boardid : String) :
    OpResult Val :=
  match fetch with
  | .error e => .error e
  | .ok none => .ok none
  | .ok (some js) =>
    match js.lookup "marketdata" with
    | none => .error .keyError
    | some t =>
      match mkDf t with
      | .error e => .error e
      | .ok df =>
        if 0 < df.rows.length then
          if df.columns.contains "BOARDID" then
            if df.columns.contains "ISSUECAPITALIZATION" then
              match (df.rows.filter (fun r =>
                  getCell df.columns r "BOARDID" == some (Val.str boardid))).head? with
              | none => .error .indexError
              | some r => .ok (some ((getCell df.columns r "ISSUECAPITALIZATION").getD Val.nan))
            else .error .keyError
          else .error .keyError
        else .ok none

/-- Embeds realtime_quotes (moex.py lines 319 to 341), parameterized on
the outcome of its fetch: a raised fetch error propagates; a None fetch
returns the sentinel; otherwise the marketdata table is read (KeyError
when absent), framed, filtered to the board (KeyError when BOARDID is
absent) and returned — an empty row filter yields an empty frame, not
the sentinel. -/
def realtime_quotes (fetch : Except PyErr (Option Json)) (boardid : String) :
    OpResult DF :=
  match fetch with
  | .error e => .error e
  | .ok none => .ok none
  | .ok (some js) =>
    match js.lookup "marketdata" with
    | none => .error .keyError
    | some t =>
      match mkDf t with
      | .error e => .error e
      | .ok df =>
        match filterBoard df boardid with
        | .error e => .error e
        | .ok df2 => .ok (some df2)

/-- Python list slice semantics for integer bounds: a negative bound
counts from the end, bounds are clamped to the list, and the elements
from the start bound up to but excluding the stop bound are kept. -/
def pySlice (a b : Int) (xs : List α) : List α :=
  let n : Int := xs.length
  let norm : Int → Nat := fun i => (if i < 0 then max (n + i) 0 else min i n).toNat
  (xs.drop (norm a)).take (norm b - norm a)

/-- Python int truncation of the float len/2 - depth: floor when the
value is nonnegative, ceiling when negative (truncation toward zero). -/
def pyIntHalfSub (len : Nat) (depth : Int) : Int :=
  if 2 * depth ≤ (len : Int) then ((len / 2 : Nat) : Int) - depth
  else (((len + 1) / 2 : Nat) : Int) - depth

/-- Python int truncation of the float len/2 + depth. -/
def pyIntHalfAdd (len : Nat) (depth : Int) : Int :=
  if 0 ≤ (len : Int) + 2 * depth then ((len / 2 : Nat) : Int) + depth
  else (((len + 1) / 2 : Nat) : Int) + depth

/-- Embeds the pandas column assignment of a single scalar (as used for
UPDATETIME at moex.py line 304): overwrites the column when present,
otherwise appends it on the right of every row. -/
def setCol (df : DF) (c : String) (v : Val) : DF :=
  match df.columns.indexOf? c with
  | some i => ⟨df.columns, df.rows.map (fun r => r.set i v)⟩
  | none => ⟨df.columns ++ [c], df.rows.map (fun r => r ++ [v])⟩

/-- Embeds orderbook (moex.py lines 266 to 317), parameterized on the
outcome of its fetch and on the clock value stamped into UPDATETIME: a
raised fetch error propagates, a None fetch returns the sentinel, and a
missing orderbook key raises KeyError — that lookup sits before the try
block. Inside the try block every failure is caught by the bare except
and becomes the sentinel; the board-filtered, stamped, reindexed book is
cut to the iloc window from int of len/2 - depth to int of len/2 + depth
and an empty window returns the sentinel. -/
def orderbook (fetch : Except PyErr (Option Json)) (boardid : String)
    (depth : Int) (now : Val) : OpResult DF :=
  match fetch with
  | .error e => .error e
  | .ok none => .ok none
  | .ok (some js) =>
    match js.lookup "orderbook" with
    | none => .error .keyError
    | some t =>
      match mkDf t with
      | .error _ => .ok none
      | .ok df =>
        match filterBoard df boardid with
        | .error _ => .ok none
        | .ok df2 =>
          let df3 := setCol df2 "UPDATETIME" now
          let cut := pySlice (pyIntHalfSub df3.rows.length depth)
            (pyIntHalfAdd df3.rows.length depth) df3.rows
          if cut.length = 0 then .ok none
          else .ok (some ⟨df3.columns, cut⟩)

/-- Embeds the helper of the historical range fetch (moex.py lines 70 to
96), parameterized on the outcome of its fetch: a raised fetch error
propagates; a None fetch returns the sentinel; otherwise the history
table is read (KeyError when absent) and framed, the TRADEDATE column is
re-parsed (KeyError when absent; cells hold day numbers), and the frame
is filtered to the board and to the inclusive window date bounds and
projected to the requested columns — the loc projection raising KeyError
when any requested column is missing from the payload schema, never
padding an unknown column. -/
def history_price_range_helper (fetch : Except PyErr (Option Json))
    (boardid : String) (dateFrom dateTo : Int) (columns : List String) :
    OpResult DF :=
  match fetch with
  | .error e => .error e
  | .ok none => .ok none
  | .ok (some js) =>
    match js.lookup "history" with
    | none => .error .keyError
    | some t =>
      match mkDf t with
      | .error e => .error e
      | .ok df =>
        if !(df.columns.contains "TRADEDATE") then .error .keyError
        else if !(df.columns.contains "BOARDID") then .error .keyError
        else if columns.any (fun c => !(df.columns.contains c)) then .error .keyError
        else
          let keep := fun r =>
            getCell df.columns r "BOARDID" == some (Val.str boardid) &&
            (match getCell df.columns r "TRADEDATE" with
             | some (Val.num d) => decide (dateFrom ≤ d ∧ d ≤ dateTo)
             | _ => false)
          .ok (some ⟨columns,
            (df.rows.filter keep).map (fun r =>
              columns.map (fun c => (getCell df.columns r c).getD Val.nan))⟩)

/-! ### Token manager (claim C6) -/

/-- Outcome of the authentication request to the passport endpoint:
either a raised transport exception or a response with status code and
body text. -/
inductive PassportOutcome where
  | exc : PassportOutcome
  | resp : Nat → String → PassportOutcome

/-- Embeds the authenticator (moex.py lines 51 to 68): with nonempty
credentials it issues the passport request; only AssertionError is
caught, so a transport exception propagates; a response failing the
status-200 and body-length assertion trips that caught assertion and
falls through, leaving the explicit unauthenticated state of
authentification False and token None, which is also the state left
when no credentials are supplied. -/
def auth (login password : String) (net : PassportOutcome) :
    Except PyErr (Bool × Option String) :=
  if login ≠ "" ∧ password ≠ "" then
    match net with
    | .exc => .error .connectionError
    | .resp status text =>
      if status = 200 ∧ 10 < text.length then .ok (true, some text)
      else .ok (false, none)
  else .ok (false, none)

/-! ### Relational insert helper (claim C9) -/

/-- Replacement applied by the insert helper (dbutils.py line 39): the
placeholder strings and Python None become NaN, every other value is
kept. -/
def replaceVal (v : Val) : Val :=
  match v with
  | .str s => if s = "Прочерк" ∨ s = "-" then .nan else .str s
  | .pynone => .nan
  | v => v

/-- Embeds the relational insert helper (dbutils.py lines 21 to 70) on a
single-record payload, a dict becoming a one-row frame. The very first
statement of the Python function (line 27) reads the module-level name
logger, which is neither defined nor imported anywhere in dbutils.py, so
with the module as it stands every call raises NameError before any of
the record logic runs; loggerDefined records whether that global
resolves. The remainder of the body is embedded so the behavior encoded
past the crashing line stays visible: placeholder values are replaced by
NaN, a created_at column holding the clock value is appended when the
payload has no such column, and every column not in the target table
column set is then dropped before the frame is handed to the SQL
engine. -/
def insert (loggerDefined : Bool) (data : List (String × Val))
    (targetColumns : List String) (now : Val) :
    Except PyErr (List (String × Val)) :=
  if !loggerDefined then .error .nameError
  else
    let d1 := data.map (fun cv => (cv.1, replaceVal cv.2))
    let d2 := if d1.any (fun cv => cv.1 == "created_at") then d1
              else d1 ++ [("created_at", now)]
    .ok (d2.filter (fun cv => targetColumns.contains cv.1))

/-! ### Trade-feed pagination (claim C2) -/

/-- Reads the TRADENO cell of the row with positional label i, as the
loc accessor does: KeyError when the label is outside the zero-based
range index (in particular the label minus one of an empty frame) or
when the TRADENO column is absent. -/
def locTradeNo (df : DF) (i : Int) : Except PyErr Val :=
  if i < 0 then .error .keyError
  else
    match df.rows.get? i.toNat with
    | none => .error .keyError
    | some r =>
      match getCell df.columns r "TRADENO" with
      | some v => .ok v
      | none => .error .keyError

/-- Embeds pd.concat with ignore_index on two frames: with identical
column lists the rows are appended; otherwise the column set is the
union in first-then-new order and missing cells are filled with NaN. -/
def concatDf (d1 d2 : DF) : DF :=
  if d1.columns = d2.columns then ⟨d1.columns, d1.rows ++ d2.rows⟩
  else
    let cols := d1.columns ++ (d2.columns.filter (fun c => !(d1.columns.contains c)))
    let reRow := fun (d : DF) (r : List Val) =>
      cols.map (fun c => (getCell d.columns r c).getD Val.nan)
    ⟨cols, d1.rows.map (reRow d1) ++ d2.rows.map (reRow d2)⟩

/-- Loop state of the trades paginator: the accumulator (None before the
first page lands), the first_trade_num local (None until the second page
is appended), the cursor carried in the query string (None for the base
URL), and the number of fetches made. -/
structure TradesState where
  result : Option DF
  firstTradeNum : Option Val
  cursor : Option Val
  fetchCount : Nat
  deriving DecidableEq

/-- Result of the trades paginator: still looping when the fuel runs out
(exposing the loop state), a returned value where none is the sentinel,
or a raised exception; the returned and raised forms also carry the
number of fetches made. -/
inductive TradesOut where
  | outOfFuel : TradesState → TradesOut
  | returned : Option DF → Nat → TradesOut
  | raised : PyErr → Nat → TradesOut
  deriving DecidableEq

/-- The pagination loop of trades (moex.py lines 353 to 374). The feed
oracle maps a cursor to the fetch outcome. One pass: fetch — a None
response returns the sentinel; the trades table is read (KeyError
propagating when absent) and framed; on the first pass the frame becomes
the accumulator with no termination check; on a later pass an empty
frame, or a frame whose first TRADENO equals first_trade_num, ends the
loop returning the accumulator without that frame; otherwise the frame
is appended and first_trade_num becomes the first TRADENO of the whole
accumulator — the first trade of page one, not the last trade number
seen. Every continuing pass then sets the cursor to the last TRADENO of
the accumulator, an access that raises KeyError on an empty
accumulator. -/
def tradesGo (feed : Option Val → Except PyErr (Option Json)) :
    Nat → TradesState → TradesOut
  | 0, st => .outOfFuel st
  | fuel + 1, st =>
    match feed st.cursor with
    | .error e => .raised e (st.fetchCount + 1)
    | .ok none => .returned none (st.fetchCount + 1)
    | .ok (some js) =>
      match js.lookup "trades" with
      | none => .raised .keyError (st.fetchCount + 1)
      | some t =>
        match mkDf t with
        | .error e => .raised e (st.fetchCount + 1)
        | .ok cur =>
          match st.result with
          | none =>
            match locTradeNo cur ((cur.rows.length : Int) - 1) with
            | .error e => .raised e (st.fetchCount + 1)
            | .ok lastNo =>
              tradesGo feed fuel ⟨some cur, st.firstTradeNum, some lastNo, st.fetchCount + 1⟩
          | some res =>
            if cur.rows.length = 0 then .returned (some res) (st.fetchCount + 1)
            else
              match locTradeNo cur 0 with
              | .error e => .raised e (st.fetchCount + 1)
              | .ok v =>
                if some v = st.firstTradeNum then
                  .returned (some res) (st.fetchCount + 1)
                else
                  let res2 := concatDf res cur
                  match locTradeNo res2 0 with
                  | .error e => .raised e (st.fetchCount + 1)
                  | .ok f2 =>
                    match locTradeNo res2 ((res2.rows.length : Int) - 1) with
                    | .error e => .raised e (st.fetchCount + 1)
                    | .ok lastNo =>
                      tradesGo feed fuel
                        ⟨some res2, some f2, some lastNo, st.fetchCount + 1⟩

/-- The trades operation (moex.py lines 343 to 374), its unbounded while
loop bounded by fuel. -/
def trades (feed : Option Val → Except PyErr (Option Json)) (fuel : Nat) :
    TradesOut :=
  tradesGo feed fuel ⟨none, none, none, 0⟩

/-- A one-column trades table holding the given trade numbers. -/
def tradesTable (ns : List Int) : RawTable :=
  ⟨["TRADENO"], ns.map (fun n => [Val.num n])⟩

theorem mkDf_tradesTable (ns : List Int) :
    mkDf (tradesTable ns) = .ok ⟨["TRADENO"], ns.map (fun n => [Val.num n])⟩ := by
  unfold mkDf tradesTable
  simp [padRow, List.map_map, Function.comp]

theorem lookup_trades (t : RawTable) :
    List.lookup "trades" [("trades", t)] = some t := rfl

theorem locTradeNo_ok (ns : List Int) (i : Nat) (hi : i < ns.length) :
    locTradeNo ⟨["TRADENO"], ns.map (fun n => [Val.num n])⟩ (i : Int) =
      .ok (Val.num ns[i]) := by
  unfold locTradeNo
  rw [if_neg (by omega)]
  have ht : ((i : Int)).toNat = i := by omega
  rw [ht, List.get?_eq_getElem?, List.getElem?_map, List.getElem?_eq_getElem hi]
  rfl

theorem locTradeNo_head (ns : List Int) (v : Int) (h : ns.head? = some v) :
    locTradeNo ⟨["TRADENO"], ns.map (fun n => [Val.num n])⟩ 0 =
      .ok (Val.num v) := by
  cases ns with
  | nil => simp at h
  | cons a l =>
    simp only [List.head?_cons, Option.some.injEq] at h
    subst h
    rfl

theorem locTradeNo_last (ns : List Int) (v : Int) (h : ns.getLast? = some v) :
    locTradeNo ⟨["TRADENO"], ns.map (fun n => [Val.num n])⟩
      (((ns.map (fun n => [Val.num n])).length : Int) - 1) = .ok (Val.num v) := by
  have hne : ns ≠ [] := by
    intro hh
    subst hh
    simp at h
  have hm : 0 < ns.length := List.length_pos.mpr hne
  have hcast : (((ns.map (fun n => [Val.num n])).length : Int) - 1)
      = ((ns.length - 1 : Nat) : Int) := by
    rw [List.length_map]
    omega
  rw [hcast, locTradeNo_ok ns (ns.length - 1) (by omega)]
  have hv : ns.getLast hne = v := by
    rw [List.getLast?_eq_getLast ns hne, Option.some.injEq] at h
    exact h
  rw [List.getLast_eq_getElem] at hv
  rw [hv]

theorem concatDf_trades (a b : List Int) :
    concatDf ⟨["TRADENO"], a.map (fun n => [Val.num n])⟩
        ⟨["TRADENO"], b.map (fun n => [Val.num n])⟩ =
      ⟨["TRADENO"], (a ++ b).map (fun n => [Val.num n])⟩ := by
  simp [concatDf]

/-- C2 (amended): the paginator terminates in exactly two cases — a page
fetched after the first is empty, or a page fetched third or later has a
first trade number equal to the first trade number of page one (the
first_trade_num local is set to row zero of the whole accumulator, and
is still None when the second page is checked) — and in both cases it
returns the pages accumulated so far, excluding the terminal page; every
continuing fetch advances the cursor to the last accumulated trade
number. A page that merely repeats the last trade number seen on the
previous page neither terminates the loop nor is deduplicated (see the
counterexample). -/
theorem C2_amended_pagination_termination
    (feed : Option Val → Except PyErr (Option Json)) (p1 p2 p3 : List Int)
    (lastP1 last12 first1 : Int)
    (hL1 : p1.getLast? = some lastP1)
    (hH1 : p1.head? = some first1)
    (hL12 : (p1 ++ p2).getLast? = some last12)
    (hf0 : feed none = .ok (some [("trades", tradesTable p1)])) :
    (feed (some (Val.num lastP1)) = .ok (some [("trades", tradesTable [])]) →
      ∀ fuel, 2 ≤ fuel → trades feed fuel =
        .returned (some ⟨["TRADENO"], p1.map (fun n => [Val.num n])⟩) 2) ∧
    (p2 ≠ [] →
      feed (some (Val.num lastP1)) = .ok (some [("trades", tradesTable p2)]) →
      feed (some (Val.num last12)) = .ok (some [("trades", tradesTable p3)]) →
      (p3 = [] ∨ p3.head? = some first1) →
      ∀ fuel, 3 ≤ fuel → trades feed fuel =
        .returned (some ⟨["TRADENO"], (p1 ++ p2).map (fun n => [Val.num n])⟩) 3) := by
  constructor
  · intro hf1 fuel hfuel
    obtain ⟨k, rfl⟩ : ∃ k, fuel = k + 2 := ⟨fuel - 2, by omega⟩
    show tradesGo feed (k + 1 + 1) ⟨none, none, none, 0⟩ = _
    simp only [tradesGo, hf0, lookup_trades, mkDf_tradesTable,
      locTradeNo_last p1 lastP1 hL1, hf1]
    simp
  · intro h2 hf1 hf2 hstop fuel hfuel
    obtain ⟨v2, hv2⟩ : ∃ v, p2.head? = some v := by
      cases p2 with
      | nil => exact absurd rfl h2
      | cons a l => exact ⟨a, rfl⟩
    have h12 : (p1 ++ p2).head? = some first1 := by
      cases p1 with
      | nil => simp at hH1
      | cons a l => simpa using hH1
    have h2len : (p2.map (fun n => [Val.num n])).length ≠ 0 := by simp [h2]
    obtain ⟨k, rfl⟩ : ∃ k, fuel = k + 3 := ⟨fuel - 3, by omega⟩
    show tradesGo feed (k + 2 + 1) ⟨none, none, none, 0⟩ = _
    simp only [tradesGo, hf0, lookup_trades, mkDf_tradesTable,
      locTradeNo_last p1 lastP1 hL1, hf1, if_neg h2len,
      locTradeNo_head p2 v2 hv2]
    simp only [reduceCtorEq, if_false, concatDf_trades,
      locTradeNo_head (p1 ++ p2) first1 h12,
      locTradeNo_last (p1 ++ p2) last12 hL12, hf2, mkDf_tradesTable]
    rcases hstop with h3 | h3
    · subst h3
      simp [tradesTable, mkDf]
    · have h3ne : (p3.map (fun n => [Val.num n])).length ≠ 0 := by
        cases p3 with
        | nil => simp at h3
        | cons a l => simp
      simp only [lookup_trades, mkDf_tradesTable, if_neg h3ne,
        locTradeNo_head p3 first1 h3]
      simp

/-- Trade feed of the C2 witness: the base page holds trades 10 and 20,
the cursor fetch at 20 yields the single trade 30, and the cursor fetch
at 30 yields a page whose first trade number repeats the first trade of
page one. -/
def feedStop : Option Val → Except PyErr (Option Json) := fun c =>
  match c with
  | none => .ok (some [("trades", tradesTable [10, 20])])
  | some (Val.num 20) => .ok (some [("trades", tradesTable [30])])
  | some (Val.num 30) => .ok (some [("trades", tradesTable [10])])
  | some _ => .ok none

/-- Witness for C2 (amended) on a three-page feed ending with a page
that repeats the first trade of page one. -/
theorem C2_amended_pagination_termination_witness :
    trades feedStop 3 =
      .returned (some ⟨["TRADENO"],
        ([10, 20] ++ [30]).map (fun n => [Val.num n])⟩) 3 :=
  (C2_amended_pagination_termination feedStop [10, 20] [30] [10] 20 30 10
    rfl rfl rfl rfl).2 (by decide) rfl rfl (Or.inr rfl) 3 (by decide)

/-- Trade feed of the C2 counterexample: the base page holds trades 10
and 20; every cursor fetch returns the single trade 20, a page that
repeats the last trade number seen on the previous page. -/
def feedRepeatLast : Option Val → Except PyErr (Option Json) := fun c =>
  match c with
  | none => .ok (some [("trades", tradesTable [10, 20])])
  | some _ => .ok (some [("trades", tradesTable [20])])

/-- C2 counterexample: against a feed whose second page repeats the last
trade number seen on the first page, the paginator does not terminate
after fetching that page and does not deduplicate the boundary: with
fuel for four passes it has made four fetches and is still looping, and
the repeated trade 20 has been appended on every pass, so the
accumulator holds it four times. -/
theorem C2_counterexample_repeat_no_termination :
    trades feedRepeatLast 4 = .outOfFuel
      ⟨some ⟨["TRADENO"], [[Val.num 10], [Val.num 20], [Val.num 20],
        [Val.num 20], [Val.num 20]]⟩, some (Val.num 10), some (Val.num 20), 4⟩ := by
  decide

/-! ### Error-path behaviour of the retrieval operations (claim C3) -/

theorem lookup_one (k : String) (t : RawTable) :
    List.lookup k [(k, t)] = some t := by
  simp [List.lookup]

/-- Sample marketdata payload whose single row belongs to another board
than TQBR. -/
def mdOtherBoard : Json :=
  [("marketdata", ⟨["BOARDID", "ISSUECAPITALIZATION"],
    [[Val.str "SMAL", Val.num 7]]⟩)]

/-- C3 counterexample: a fetch that succeeds with a nonempty marketdata
table holding no row of the requested board makes capitalization raise
IndexError — the values subscript of an empty loc selection — so this
zero-row filter path propagates an error instead of returning the
sentinel None. -/
theorem C3_counterexample_capitalization_raises :
    capitalization (.ok (some mdOtherBoard)) "TQBR" = .error .indexError := rfl

/-- C3 (amended): when the fetch yields no response every operation does
return the sentinel None (trades after a single fetch), and orderbook
converts failures inside its guarded parsing — here a malformed table —
to the sentinel as well; but not every failure path funnels to the
sentinel: a payload missing its expected top-level key raises KeyError
in capitalization (the lookup in orderbook and trades behaves alike and
precedes orderbook's guard), and a row filter producing zero rows makes
capitalization raise IndexError (the counterexample) while
realtime_quotes returns an empty frame, not the sentinel. -/
theorem C3_amended_error_paths :
    (∀ b, capitalization (.ok none) b = .ok none) ∧
    (∀ b, realtime_quotes (.ok none) b = .ok none) ∧
    (∀ b d now, orderbook (.ok none) b d now = .ok none) ∧
    (∀ b dfrom dto cols,
      history_price_range_helper (.ok none) b dfrom dto cols = .ok none) ∧
    (∀ feed : Option Val → Except PyErr (Option Json), feed none = .ok none →
      trades feed 5 = .returned none 1) ∧
    (∀ t b d now, mkDf t = .error .valueError →
      orderbook (.ok (some [("orderbook", t)])) b d now = .ok none) ∧
    (∀ b, capitalization (.ok (some [])) b = .error .keyError) ∧
    (realtime_quotes (.ok (some mdOtherBoard)) "TQBR" =
      .ok (some ⟨["BOARDID", "ISSUECAPITALIZATION"], []⟩)) := by
  refine ⟨fun b => rfl, fun b => rfl, fun b d now => rfl, fun b f t c => rfl,
    ?_, ?_, fun b => rfl, rfl⟩
  · intro feed hfeed
    simp [trades, tradesGo, hfeed]
  · intro t b d now hmk
    simp [orderbook, lookup_one, hmk]

/-- A raw table whose single row is wider than its column list, which
the dataframe constructor rejects. -/
def raggedTable : RawTable := ⟨["A"], [[Val.num 1, Val.num 2]]⟩

/-- Witness for C3 (amended): the trades sentinel on a dead feed and the
orderbook guard on a malformed table. -/
theorem C3_amended_error_paths_witness :
    trades (fun _ => Except.ok none) 5 = .returned none 1 ∧
      orderbook (.ok (some [("orderbook", raggedTable)])) "TQBR" 10 Val.nan =
        .ok none :=
  ⟨C3_amended_error_paths.2.2.2.2.1 (fun _ => Except.ok none) rfl,
    C3_amended_error_paths.2.2.2.2.2.1 raggedTable "TQBR" 10 Val.nan rfl⟩

/-! ### Order-book window (claim C5) -/

theorem setCol_rows_length (df : DF) (c : String) (v : Val) :
    (setCol df c v).rows.length = df.rows.length := by
  unfold setCol
  cases df.columns.indexOf? c <;> simp

/-- C5: for a successfully fetched and board-filtered book of length L,
reindexed from zero, and a requested depth D with D at most L/2, the
orderbook window is exactly the slice of the stamped book from index
L/2 - D up to but excluding L/2 + D — 2D rows centred on the midpoint —
and the sentinel None is returned exactly when that slice is empty,
which under the depth bound happens exactly at depth zero. -/
theorem C5_orderbook_window (js : Json) (t : RawTable) (df df2 : DF)
    (b : String) (now : Val) (D : Nat)
    (hjs : js.lookup "orderbook" = some t) (hmk : mkDf t = .ok df)
    (hfb : filterBoard df b = .ok df2)
    (hD : D ≤ df2.rows.length / 2) :
    (0 < D → orderbook (.ok (some js)) b (D : Int) now =
        .ok (some ⟨(setCol df2 "UPDATETIME" now).columns,
          ((setCol df2 "UPDATETIME" now).rows.drop
            (df2.rows.length / 2 - D)).take (2 * D)⟩) ∧
      (((setCol df2 "UPDATETIME" now).rows.drop
        (df2.rows.length / 2 - D)).take (2 * D)).length = 2 * D) ∧
    (D = 0 → orderbook (.ok (some js)) b (D : Int) now = .ok none) := by
  have hsl : (setCol df2 "UPDATETIME" now).rows.length = df2.rows.length :=
    setCol_rows_length df2 "UPDATETIME" now
  have hsub : pyIntHalfSub (setCol df2 "UPDATETIME" now).rows.length (D : Int)
      = ((df2.rows.length / 2 - D : Nat) : Int) := by
    unfold pyIntHalfSub
    rw [hsl, if_pos (by omega)]
    omega
  have hadd : pyIntHalfAdd (setCol df2 "UPDATETIME" now).rows.length (D : Int)
      = ((df2.rows.length / 2 + D : Nat) : Int) := by
    unfold pyIntHalfAdd
    rw [hsl, if_pos (by omega)]
    omega
  have hslice : pySlice ((df2.rows.length / 2 - D : Nat) : Int)
      ((df2.rows.length / 2 + D : Nat) : Int) (setCol df2 "UPDATETIME" now).rows
      = ((setCol df2 "UPDATETIME" now).rows.drop
          (df2.rows.length / 2 - D)).take (2 * D) := by
    simp only [pySlice, hsl]
    rw [if_neg (by omega), if_neg (by omega)]
    have m1 : (min ((df2.rows.length / 2 - D : Nat) : Int)
        (df2.rows.length : Int)).toNat = df2.rows.length / 2 - D := by omega
    have m2 : (min ((df2.rows.length / 2 + D : Nat) : Int)
        (df2.rows.length : Int)).toNat = df2.rows.length / 2 + D := by omega
    rw [m1, m2]
    have m3 : df2.rows.length / 2 + D - (df2.rows.length / 2 - D) = 2 * D := by
      omega
    rw [m3]
  have hlen2 : (((setCol df2 "UPDATETIME" now).rows.drop
      (df2.rows.length / 2 - D)).take (2 * D)).length = 2 * D := by
    rw [List.length_take, List.length_drop, hsl]
    omega
  constructor
  · intro hDpos
    refine ⟨?_, hlen2⟩
    simp only [orderbook, hjs, hmk, hfb, hsub, hadd, hslice, hlen2]
    rw [if_neg (by omega)]
  · intro hD0
    simp only [orderbook, hjs, hmk, hfb, hsub, hadd, hslice, hlen2]
    rw [if_pos (by omega)]

/-- The order book of the C5 witness: four TQBR price levels. -/
def bookTable : RawTable :=
  ⟨["BOARDID", "PRICE"],
    [[Val.str "TQBR", Val.num 1], [Val.str "TQBR", Val.num 2],
     [Val.str "TQBR", Val.num 3], [Val.str "TQBR", Val.num 4]]⟩

/-- The C5 witness frame: the book table framed and board-filtered. -/
def bookDf : DF :=
  ⟨["BOARDID", "PRICE"],
    [[Val.str "TQBR", Val.num 1], [Val.str "TQBR", Val.num 2],
     [Val.str "TQBR", Val.num 3], [Val.str "TQBR", Val.num 4]]⟩

/-- Witness for C5 at a four-level book and depth one: the two middle
levels are returned. -/
theorem C5_orderbook_window_witness :
    orderbook (.ok (some [("orderbook", bookTable)])) "TQBR" ((1 : Nat) : Int)
        Val.nan =
      .ok (some ⟨(setCol bookDf "UPDATETIME" Val.nan).columns,
        ((setCol bookDf "UPDATETIME" Val.nan).rows.drop
          (bookDf.rows.length / 2 - 1)).take (2 * 1)⟩) :=
  ((C5_orderbook_window [("orderbook", bookTable)] bookTable bookDf bookDf
    "TQBR" Val.nan 1 rfl rfl rfl (by decide)).1 (by decide)).1

/-! ### Anonymous fallback of the authenticator (claim C6) -/

/-- Sample marketdata payload with one TQBR row and capitalization 100. -/
def mdTQBR : Json :=
  [("marketdata", ⟨["BOARDID", "ISSUECAPITALIZATION"],
    [[Val.str "TQBR", Val.num 100]]⟩)]

/-- C6 counterexample: a transport failure during the authentication
request propagates out of the authenticator — only AssertionError is
caught — contradicting the claim that a failure for any reason,
network failure included, yields the unauthenticated state without
raising. -/
theorem C6_counterexample_auth_network_raises :
    auth "user" "secret" .exc = .error .connectionError := rfl

/-- C6 (amended): a rejected authentication response — any status and
body failing the status-200 and body-length assertion — leaves the
explicit unauthenticated state of authentification False and token None
without raising, as does construction without credentials, and a
subsequent unauthenticated-permitted call such as capitalization still
succeeds in the anonymous state whenever its own fetch succeeds; but a
transport failure during the authentication request itself propagates
as an exception, because only AssertionError is caught there. -/
theorem C6_amended_anonymous_fallback :
    (∀ l p status text, ¬(status = 200 ∧ 10 < text.length) →
      auth l p (.resp status text) = .ok (false, none)) ∧
    (∀ net, auth "" "" net = .ok (false, none)) ∧
    (capitalization (.ok (some mdTQBR)) "TQBR" = .ok (some (Val.num 100))) := by
  refine ⟨?_, ?_, rfl⟩
  · intro l p status text hrej
    unfold auth
    split
    · simp [hrej]
    · rfl
  · intro net
    rfl

/-- Witness for C6 (amended): a 403 rejection of bad credentials leaves
the unauthenticated state. -/
theorem C6_amended_anonymous_fallback_witness :
    auth "user" "badpw" (.resp 403 "denied") = .ok (false, none) :=
  C6_amended_anonymous_fallback.1 "user" "badpw" 403 "denied" (by decide)

/-! ### Column projection (claim C8) -/

/-- C8: in the operation with a caller-selected column projection — the
historical-range helper — requesting a column absent from the upstream
payload schema makes the query raise KeyError, an explicit contract
violation, rather than return any frame with a silently padded null
column. (realtime_quotes exposes no column projection parameter at all;
its result always carries the upstream schema.) -/
theorem C8_unknown_column_rejected (js : Json) (t : RawTable) (df : DF)
    (b : String) (dfrom dto : Int) (cols : List String) (c : String)
    (hjs : js.lookup "history" = some t) (hmk : mkDf t = .ok df)
    (hc : c ∈ cols) (hmiss : df.columns.contains c = false) :
    history_price_range_helper (.ok (some js)) b dfrom dto cols =
      .error .keyError := by
  have hany : cols.any (fun x => !(df.columns.contains x)) = true :=
    List.any_eq_true.mpr ⟨c, hc, by rw [hmiss]; rfl⟩
  simp only [history_price_range_helper, hjs, hmk]
  simp
  intro h1 h2
  obtain ⟨x, hx, hnx⟩ := List.any_eq_true.mp hany
  exact ⟨x, hx, by simpa using hnx⟩

/-- The history payload of the C8 witness. -/
def historyTable : RawTable :=
  ⟨["BOARDID", "TRADEDATE", "CLOSE"],
    [[Val.str "TQBR", Val.num 5, Val.num 10]]⟩

/-- Witness for C8: requesting the unknown column FOO raises KeyError. -/
theorem C8_unknown_column_rejected_witness :
    history_price_range_helper (.ok (some [("history", historyTable)]))
      "TQBR" 0 9 ["TRADEDATE", "FOO"] = .error .keyError :=
  C8_unknown_column_rejected [("history", historyTable)] historyTable
    ⟨["BOARDID", "TRADEDATE", "CLOSE"], [[Val.str "TQBR", Val.num 5, Val.num 10]]⟩
    "TQBR" 0 9 ["TRADEDATE", "FOO"] "FOO" rfl rfl (by decide) (by decide)

/-! ### Relational insert (claim C9) -/

/-- C9: the claim describes the record logic of the insert helper, but
dbutils.py as it stands never reaches that logic — the first statement
of insert reads the undefined module global logger, so every call, the
one-column failing input here included, raises NameError before any
placeholder replacement, created_at attachment or column drop runs.
Were the logger name defined, the remaining body would drop unknown
columns and attach created_at exactly when the payload lacks one, as
the second conjunct evaluates on a concrete record (its values would
additionally undergo the placeholder-to-NaN replacement of line 39
rather than pass through verbatim). -/
theorem C9_insert_crashes_on_undefined_logger :
    (∀ data targetColumns now,
      insert false data targetColumns now = .error .nameError) ∧
    insert true [("x", Val.num 1)] ["x", "created_at"] (Val.num 9) =
      .ok [("x", Val.num 1), ("created_at", Val.num 9)] :=
  ⟨fun _ _ _ => rfl, rfl⟩

end Moex
